import Mathlib

/-
Verification of the aria2 front-end controller (src/new.py) against its
natural-language specification.  The Python source is shallowly embedded:
pure computations become Lean functions; effectful steps (process probes,
spawning, filesystem existence, RPC outcomes) become explicit oracle
parameters recording what the environment answered; Python exceptions
become `Except` results.
-/

namespace Speedown

/-! ## ExecutableLocator: Aria2Controller._find_aria2_executable (lines 23-52) -/

/-- Canonical daemon executable name on POSIX platforms. -/
def posixExeName : String := "aria2c"

/-- Canonical daemon executable name on Windows. -/
def winExeName : String := "aria2c.exe"

/-- Well-known install locations checked first by `_find_aria2_executable`,
in source order.  `home` stands for the result of `os.path.expanduser("~")`. -/
def knownPaths (isWin : Bool) (home : String) : List String :=
  if isWin then
    ["C:\\Program Files\\Aria2\\aria2c.exe",
     "C:\\aria2\\aria2c.exe",
     home ++ "\\AppData\\Local\\Programs\\aria2\\aria2c.exe"]
  else
    ["/usr/bin/aria2c", "/usr/local/bin/aria2c", "/opt/homebrew/bin/aria2c"]

/-- Does `dir` already end in a path separator (so `os.path.join` adds none)?
On Windows `ntpath.join` treats a backslash, a slash, or a drive colon as
needing no extra separator. -/
def isSepTerminated (isWin : Bool) (dir : String) : Bool :=
  if isWin then dir.endsWith ("\\") || dir.endsWith ("/") || dir.endsWith (":")
  else dir.endsWith ("/")

/-- `os.path.join(dir, name)` for a relative `name`, as used at lines 36 and 45. -/
def joinPath (isWin : Bool) (dir name : String) : String :=
  if dir = "" then name
  else if isSepTerminated isWin dir then dir ++ name
  else dir ++ (if isWin then "\\" else "/") ++ name

/-- Separator used to split the PATH environment variable: ";" on Windows
(line 35), ":" elsewhere (line 44). -/
def pathSepChar (isWin : Bool) : String := if isWin then ";" else ":"

/-- The full candidate list built by `_find_aria2_executable`: the well-known
paths followed by every PATH directory joined with the executable name. -/
def candidatePaths (isWin : Bool) (home pathVar : String) : List String :=
  knownPaths isWin home ++
    (pathVar.splitOn (pathSepChar isWin)).map
      (fun d => joinPath isWin d (if isWin then winExeName else posixExeName))

/-- The final scan loop of `_find_aria2_executable` (lines 48-52): return the
first candidate for which the existence oracle `ex` (os.path.exists) answers
true, else none. -/
def findScan (ex : String → Bool) : List String → Option String
  | [] => none
  | p :: rest => if ex p then some p else findScan ex rest

/-- `Aria2Controller._find_aria2_executable` (lines 23-52).  `ex` is the
filesystem-existence oracle. -/
def findAria2Executable (isWin : Bool) (home pathVar : String)
    (ex : String → Bool) : Option String :=
  findScan ex (candidatePaths isWin home pathVar)

/-! ## Spawn command: Aria2Controller.start_aria2 command construction (lines 62-75) -/

/-- The command list built at lines 63-75: seven fixed elements (the detach
flag position holds the empty string on Windows), then `--conf-path` appended
only when `config_path` is truthy (non-None and nonempty) and
`os.path.exists(config_path)` (oracle `configExists`) answers true. -/
def buildCmd (isWin : Bool) (exe : String) (port : Nat) (secret : String)
    (configPath : Option String) (configExists : Bool) : List String :=
  let cmd : List String :=
    [exe,
     "--enable-rpc",
     "--rpc-listen-port=" ++ toString port,
     "--rpc-secret=" ++ secret,
     "--rpc-allow-origin-all",
     "--rpc-listen-all=true",
     if isWin then "" else "--daemon=true"]
  match configPath with
  | some p => if p ≠ "" ∧ configExists = true then cmd ++ ["--conf-path=" ++ p] else cmd
  | none => cmd

/-- The spawn argument list as the spec's interface section lists it, amended
with the condition the source actually imposes on the config-file argument:
it is appended only when the extra config path is set (nonempty) and exists
on the filesystem. -/
def specSpawnArgs (isWin : Bool) (exe : String) (port : Nat) (secret : String)
    (configPath : Option String) (configExists : Bool) : List String :=
  [exe,
   "--enable-rpc",
   "--rpc-listen-port=" ++ toString port,
   "--rpc-secret=" ++ secret,
   "--rpc-allow-origin-all",
   "--rpc-listen-all=true",
   if isWin then "" else "--daemon=true"]
  ++ (match configPath with
      | some p => if p ≠ "" ∧ configExists = true then ["--conf-path=" ++ p] else []
      | none => [])

/-! ## Link routing: Aria2DownloaderApp.start_download (lines 505-510) -/

/-- Is the first list a leading segment of the second?  Used to give the
Python `str.startswith` / `str.endswith` tests a kernel-evaluable form. -/
def strHasPfx : List Char → List Char → Bool
  | [], _ => true
  | _ :: _, [] => false
  | a :: as, b :: bs => a == b && strHasPfx as bs

/-- Python `s.startswith(pfx)`. -/
def pyStartsWith (s pfx : String) : Bool := strHasPfx pfx.data s.data

/-- Python `s.endswith(sfx)`. -/
def pyEndsWith (s sfx : String) : Bool := strHasPfx sfx.data.reverse s.data.reverse

/-- The three RPC enqueue operations the app can route a link to. -/
inductive RpcRoute
  | magnetAdd
  | torrentAdd
  | uriAdd
deriving DecidableEq, Repr

/-- The routing decision of `start_download` (lines 505-510): a link starting
with the magnet prefix goes to `add_magnet`, else one ending in ".torrent"
goes to `add_torrent`, else `add_uris`. -/
def routeLink (url : String) : RpcRoute :=
  if pyStartsWith url ("magnet:") then RpcRoute.magnetAdd
  else if pyEndsWith url (".torrent") then RpcRoute.torrentAdd
  else RpcRoute.uriAdd

/-! ## User-input conversions: start_aria2_service (line 429) and start_download (line 499) -/

/-- Is the character ASCII whitespace (the cases Python's `int()` strips)? -/
def isPySpace (c : Char) : Bool :=
  c == ' ' || c == '\t' || c == '\n' || c == '\r'

/-- Drop leading whitespace from a character list. -/
def dropSpaces : List Char → List Char
  | [] => []
  | c :: cs => if isPySpace c then dropSpaces cs else c :: cs

/-- Strip whitespace from both ends, as Python `int()` does to its argument. -/
def pyStrip (l : List Char) : List Char :=
  ((dropSpaces ((dropSpaces l).reverse)).reverse)

/-- Python's built-in `int()` applied to a string, for the inputs this program
meets: optional surrounding whitespace, an optional sign, then decimal digits;
anything else raises ValueError (modelled as `Except.error ()`).  Underscore
digit grouping is not modelled. -/
def pyInt (s : String) : Except Unit Int :=
  let t := pyStrip s.data
  let signed : Int × List Char :=
    match t with
    | c :: rest => if c == '-' then (-1, rest) else if c == '+' then (1, rest) else (1, t)
    | [] => (1, t)
  if (!signed.2.isEmpty) && signed.2.all (fun c => 48 ≤ c.toNat && c.toNat ≤ 57) then
    Except.ok (signed.1 * Int.ofNat (signed.2.foldl (fun acc c => 10 * acc + (c.toNat - 48)) 0))
  else Except.error ()

/-- The port conversion performed by `start_aria2_service` (line 429):
`int(self.rpc_port_var.get())`, executed with no surrounding try, so a
ValueError propagates out of the button handler uncaught. -/
def serviceStartPortParse (portStr : String) : Except Unit Int := pyInt portStr

/-- The rate-limit guard in `start_download` (line 499):
`if speed_limit and int(speed_limit) > 0`, with no surrounding try for the
conversion, so a non-numeric nonempty field raises ValueError uncaught. -/
def speedLimitParse (s : String) : Except Unit Bool :=
  if s = "" then Except.ok false
  else
    match pyInt s with
    | Except.ok n => Except.ok (decide (0 < n))
    | Except.error e => Except.error e

/-! ## Poll refresh: Aria2DownloaderApp.update_status (lines 568-586) -/

/-- Effect of `update_status` (lines 576-586) on the displayed task table,
rows abstracted to a type `α`.  `client` is whether `self.aria2_client` is
set; `poll` is the outcome of the `get_downloads()` RPC call.  The returned
Bool records whether an exception escaped the handler.  The source deletes
every row of the table first and only then calls `get_downloads()`, with no
try/except around either, so a failing poll leaves the table cleared and
lets the exception propagate. -/
def updateStatusRegistry (α : Type) (client : Bool) (prior : List α)
    (poll : Except Unit (List α)) : List α × Bool :=
  if client then
    match poll with
    | Except.ok ds => (ds, false)
    | Except.error _ => ([], true)
  else (prior, false)

/-! ## ProcessHealthProbe: Aria2Controller.is_aria2_running (lines 139-154) -/

/-- One step of enumerating `psutil.net_connections()`: either a connection
with its local-address port and status, or the point at which the enumeration
raises `psutil.AccessDenied` / `psutil.NoSuchProcess`. -/
inductive ConnEvent
  | conn (port : Nat) (status : String)
  | denied
deriving DecidableEq, Repr

/-- The try-block loop over `psutil.net_connections()` (lines 142-145):
return true on the first connection listening on `port`; a permission error
aborts the loop with an exception (`Except.error ()`). -/
def netScan (port : Nat) : List ConnEvent → Except Unit Bool
  | [] => Except.ok false
  | ConnEvent.conn p st :: rest =>
      if p = port ∧ st = "LISTEN" then Except.ok true else netScan port rest
  | ConnEvent.denied :: _ => Except.error ()

/-- The process-table check (lines 150-152): `psutil.process_iter(['name'])`
yields each process's name, with `none` standing for psutil's documented
behaviour of substituting None when reading the name raises AccessDenied
(so no exception reaches this loop). -/
def procNameHit (procs : List (Option String)) : Bool :=
  procs.any (fun n => n == some (posixExeName) || n == some (winExeName))

/-- `Aria2Controller.is_aria2_running` (lines 139-154): port check inside
try/except (a permission error is swallowed and control falls through),
then the process-name check.  The result is `Except` so that an escaping
exception would be visible as `Except.error`. -/
def isAria2Running (port : Nat) (conns : List ConnEvent)
    (procs : List (Option String)) : Except Unit Bool :=
  match netScan port conns with
  | Except.ok true => Except.ok true
  | Except.ok false => Except.ok (procNameHit procs)
  | Except.error _ => Except.ok (procNameHit procs)

/-! ## DaemonSupervisor state: Aria2Controller (lines 14-137) -/

/-- The mutable fields of `Aria2Controller` relevant to start/stop.
`hasProcess` is whether `self.aria2_process` is set; `aria2Running` is the
`self.aria2_running` flag. -/
structure ControllerState where
  rpcSecret : String
  port : Nat
  configPath : Option String
  aria2Executable : Option String
  hasProcess : Bool
  aria2Running : Bool
deriving DecidableEq, Repr

/-- Python truthiness test `not self.aria2_executable` (line 56): true when
the field is None or the empty string. -/
def execMissing : Option String → Bool
  | none => true
  | some e => e == ""

/-- Oracle answers consumed by one `start_aria2` call: the health probe at
entry, whether `subprocess.Popen` raised, and the probe after the 2-second
grace sleep.  (`configExists` feeds the command construction, modelled
separately by `buildCmd`.) -/
structure StartEnv where
  probeBefore : Bool
  spawnOk : Bool
  probeAfter : Bool
  configExists : Bool
deriving DecidableEq, Repr

/-- The five distinguishable return values of `start_aria2`, in the order the
source can produce them: (False, "Aria2 executable not found"),
(True, "... is already running"), (True, "... started successfully"),
(False, "Failed to start ..."), and the except-branch (False, "Error starting ..."). -/
inductive StartResult
  | execNotFound
  | alreadyRunning
  | started
  | startFailed
  | startError
deriving DecidableEq, Repr

/-- `Aria2Controller.start_aria2` (lines 54-104): result, updated controller
state, and the number of processes spawned by this call. -/
def startAria2 (s : ControllerState) (env : StartEnv) :
    StartResult × ControllerState × Nat :=
  if execMissing s.aria2Executable then (StartResult.execNotFound, s, 0)
  else if env.probeBefore then (StartResult.alreadyRunning, s, 0)
  else if env.spawnOk then
    let s1 : ControllerState := { s with hasProcess := true }
    if env.probeAfter then (StartResult.started, { s1 with aria2Running := true }, 1)
    else (StartResult.startFailed, s1, 1)
  else (StartResult.startError, s, 0)

/-- Outcome of one `proc.terminate()` call in the cleanup sweep of
`stop_aria2` (lines 121-126): success, the caught `psutil.NoSuchProcess`,
or any other exception (e.g. AccessDenied), which the sweep does not catch. -/
inductive TermOutcome
  | ok
  | noSuchProcess
  | otherError
deriving DecidableEq, Repr

/-- The four distinguishable return values of `stop_aria2`:
(True, "... is not running"), (True, "... stopped successfully"),
(False, "Failed to stop ..."), and the except-branch (False, "Error stopping ..."). -/
inductive StopResult
  | notRunning
  | stopped
  | stopFailed
  | stopError
deriving DecidableEq, Repr

/-- The boolean success component of the Python `(success, message)` pair
returned by `stop_aria2`. -/
def stopSuccess : StopResult → Bool
  | StopResult.notRunning => true
  | StopResult.stopped => true
  | StopResult.stopFailed => false
  | StopResult.stopError => false

/-- Termination actions `stop_aria2` can perform: graceful terminate of the
owned handle, force kill of the owned handle after the 5-second wait times
out, and terminate of the i-th name-matching process of the sweep. -/
inductive StopAction
  | termOwned
  | killOwned
  | termProc (i : Nat)
deriving DecidableEq, Repr

/-- Oracle answers consumed by one `stop_aria2` call: health probe at entry,
whether the owned handle is alive (`poll() is None`), whether `wait(5)`
returned before the timeout, the terminate outcome for each name-matching
process in iteration order, and the health probe after the 1-second settle
sleep. -/
structure StopEnv where
  probeBefore : Bool
  ownedAlive : Bool
  gracefulExit : Bool
  sweep : List TermOutcome
  probeAfter : Bool
deriving DecidableEq, Repr

/-- The cleanup sweep of `stop_aria2` (lines 121-126), numbering matching
processes from `i`: each is sent terminate in order; `NoSuchProcess` is
caught and ignored; any other exception aborts the sweep (second component
true) and propagates to the outer handler. -/
def sweepRun (i : Nat) : List TermOutcome → List StopAction × Bool
  | [] => ([], false)
  | TermOutcome.ok :: rest =>
      let r := sweepRun (i + 1) rest
      (StopAction.termProc i :: r.1, r.2)
  | TermOutcome.noSuchProcess :: rest =>
      let r := sweepRun (i + 1) rest
      (StopAction.termProc i :: r.1, r.2)
  | TermOutcome.otherError :: _ => ([StopAction.termProc i], true)

/-- `Aria2Controller.stop_aria2` (lines 106-137): result, updated state, and
the termination actions performed, in order. -/
def stopAria2 (s : ControllerState) (env : StopEnv) :
    StopResult × ControllerState × List StopAction :=
  if env.probeBefore = false then (StopResult.notRunning, s, [])
  else
    let owned : List StopAction :=
      if s.hasProcess && env.ownedAlive then
        if env.gracefulExit then [StopAction.termOwned]
        else [StopAction.termOwned, StopAction.killOwned]
      else []
    let sw := sweepRun 0 env.sweep
    if sw.2 then (StopResult.stopError, s, owned ++ sw.1)
    else if env.probeAfter = false then
      (StopResult.stopped, { s with aria2Running := false }, owned ++ sw.1)
    else (StopResult.stopFailed, s, owned ++ sw.1)

/-! ## Helper lemmas -/

/-- The existence-scan loop is exactly `List.find?`. -/
theorem findScan_eq_find (ex : String → Bool) :
    ∀ l : List String, findScan ex l = l.find? ex := by
  intro l
  induction l with
  | nil => rfl
  | cons p rest ih =>
      unfold findScan
      cases hp : ex p with
      | true => simp [List.find?_cons, hp]
      | false => simp [List.find?_cons, hp, ih]

/-! ## Claim theorems -/

/-- Claim C6: for every filesystem-existence assignment, the locator returns
the first existing candidate in the documented priority order — the
well-known platform install directories before every PATH directory — and
returns none when no candidate exists. -/
theorem locate_first_existing (isWin : Bool) (home pathVar : String)
    (ex : String → Bool) :
    findAria2Executable isWin home pathVar ex
        = (candidatePaths isWin home pathVar).find? ex
  ∧ candidatePaths isWin home pathVar
        = knownPaths isWin home ++
            (pathVar.splitOn (pathSepChar isWin)).map
              (fun d => joinPath isWin d (if isWin then winExeName else posixExeName))
  ∧ ((∀ c ∈ candidatePaths isWin home pathVar, ex c = false) →
        findAria2Executable isWin home pathVar ex = none) := by
  refine ⟨findScan_eq_find ex _, rfl, ?_⟩
  intro hnone
  unfold findAria2Executable
  rw [findScan_eq_find ex _, List.find?_eq_none]
  intro c hc
  simp [hnone c hc]

/-- Witness for C6 at a concrete input: with no candidate existing, the
locator reports the absent result. -/
theorem locate_first_existing_witness :
    findAria2Executable false ("/home/u") ("/bin:/usr/bin") (fun _ => false) = none :=
  (locate_first_existing false ("/home/u") ("/bin:/usr/bin") (fun _ => false)).2.2
    (fun _ _ => rfl)

/-- Claim C7, counterexample: with the extra config path set to a nonexistent
file, the built command contains no `--conf-path` argument at all, so the
claim's "whenever extraConfigPath is set" does not hold as stated. -/
theorem spawn_args_conf_counterexample :
    buildCmd false ("aria2c") 6800 ("s3cr3t") (some ("/nonexistent/aria2.conf")) false
      = ["aria2c", "--enable-rpc", "--rpc-listen-port=6800", "--rpc-secret=s3cr3t",
         "--rpc-allow-origin-all", "--rpc-listen-all=true", "--daemon=true"]
  ∧ ("--conf-path=/nonexistent/aria2.conf") ∉
      (["aria2c", "--enable-rpc", "--rpc-listen-port=6800", "--rpc-secret=s3cr3t",
        "--rpc-allow-origin-all", "--rpc-listen-all=true", "--daemon=true"] : List String)
  ∧ (some ("/nonexistent/aria2.conf") : Option String) ≠ none := by
  refine ⟨by rfl, by decide, by decide⟩

/-- Claim C7 (amended): the argument list passed to the spawned daemon is
exactly the executable, `--enable-rpc`, `--rpc-listen-port=<port>`,
`--rpc-secret=<secret>`, `--rpc-allow-origin-all`, `--rpc-listen-all=true`,
the platform-conditional detach element (empty string on Windows), and —
whenever the extra config path is set to a nonempty path that exists on the
filesystem — an appended `--conf-path=<path>`, with no other arguments. -/
theorem spawn_args_exact (isWin : Bool) (exe : String) (port : Nat)
    (secret : String) (configPath : Option String) (configExists : Bool) :
    buildCmd isWin exe port secret configPath configExists
      = specSpawnArgs isWin exe port secret configPath configExists := by
  unfold buildCmd specSpawnArgs
  cases configPath with
  | none => simp
  | some p =>
      by_cases hp : p ≠ "" ∧ configExists = true
      · simp [hp]
      · simp [hp]

/-- Claim C10: on Windows with no config path set, the built command list
always ends in an empty-string element (the platform-conditional ternary
yields "" instead of omitting the argument), so the spawned daemon receives
an empty-string command-line argument. -/
theorem windows_trailing_empty_arg (exe secret : String) (port : Nat)
    (configExists : Bool) :
    (buildCmd true exe port secret none configExists).getLast? = some ("")
  ∧ ("") ∈ buildCmd true exe port secret none configExists := by
  constructor
  · rfl
  · simp [buildCmd]

/-- Claim C8: a link beginning with the magnet prefix is routed to the
magnet-add operation, and a link that neither starts with the magnet prefix
nor ends in ".torrent" (an ordinary URL such as an http link) is routed to
the generic URI-add operation — never the other way around; in particular
the spec's two scenario links route as stated. -/
theorem route_magnet_and_uri (url : String) :
    (routeLink url = RpcRoute.magnetAdd ↔ pyStartsWith url ("magnet:") = true)
  ∧ (routeLink url = RpcRoute.uriAdd ↔
        (pyStartsWith url ("magnet:") = false ∧ pyEndsWith url (".torrent") = false))
  ∧ routeLink ("magnet:?xt=urn:btih:ABC") = RpcRoute.magnetAdd
  ∧ routeLink ("http://x/y.iso") = RpcRoute.uriAdd := by
  refine ⟨?_, ?_, by decide, by decide⟩
  · unfold routeLink
    cases h1 : pyStartsWith url ("magnet:") <;>
      cases h2 : pyEndsWith url (".torrent") <;> simp [h1, h2]
  · unfold routeLink
    cases h1 : pyStartsWith url ("magnet:") <;>
      cases h2 : pyEndsWith url (".torrent") <;> simp [h1, h2]

/-- Claim C3 (code bug): a poll whose listAll call fails does not leave the
registry unchanged — the source deletes every displayed row before issuing
the RPC call and catches nothing, so the failing poll leaves the registry
empty and the exception escapes; a successful poll replaces it wholesale. -/
theorem poll_failure_clears_registry :
    updateStatusRegistry String true ["task1"] (Except.error ()) = ([], true)
  ∧ ([] : List String) ≠ ["task1"]
  ∧ updateStatusRegistry String true ["task1"] (Except.ok (["task2"])) = (["task2"], false) := by
  decide

/-- Claim C9 (code bug): a non-numeric port string makes the start-service
handler raise an uncaught ValueError at `int(...)`, and a non-numeric
nonempty rate-limit string does the same in the enqueue handler, instead of
being validated and rejected with a user-facing message; numeric inputs
convert normally. -/
theorem nonnumeric_input_raises :
    serviceStartPortParse ("abc") = Except.error ()
  ∧ serviceStartPortParse ("6800") = Except.ok 6800
  ∧ speedLimitParse ("xyz") = Except.error ()
  ∧ speedLimitParse ("0") = Except.ok false := by
  refine ⟨rfl, rfl, rfl, rfl⟩

/-- Claim C2: the health probe returns true exactly when the port-listen
check (executed up to any permission error, which aborts it) or the
process-name check matches; it never propagates an exception, and a
permission error during socket enumeration is swallowed, the probe falling
through to the process-name check. -/
theorem is_running_either_check (port : Nat) (conns : List ConnEvent)
    (procs : List (Option String)) :
    (∃ b, isAria2Running port conns procs = Except.ok b)
  ∧ (isAria2Running port conns procs = Except.ok true ↔
        (netScan port conns = Except.ok true ∨ procNameHit procs = true))
  ∧ (netScan port conns = Except.error () →
        isAria2Running port conns procs = Except.ok (procNameHit procs)) := by
  unfold isAria2Running
  cases hs : netScan port conns with
  | ok b =>
      cases b with
      | true => exact ⟨⟨true, rfl⟩, by simp, by simp⟩
      | false =>
          refine ⟨⟨procNameHit procs, rfl⟩, ?_, by simp⟩
          cases hp : procNameHit procs <;> simp [hp]
  | error e =>
      cases e
      refine ⟨⟨procNameHit procs, rfl⟩, ?_, fun _ => rfl⟩
      cases hp : procNameHit procs <;> simp [hp]

/-- Witness for C2 at a concrete input: the socket enumeration raises a
permission error at once, yet the probe still reports the result of the
process-name check (here true, as an aria2c process is visible). -/
theorem is_running_either_check_witness :
    isAria2Running 6800 [ConnEvent.denied] [some ("aria2c")]
      = Except.ok (procNameHit [some ("aria2c")]) :=
  (is_running_either_check 6800 [ConnEvent.denied] [some ("aria2c")]).2.2 rfl

/-- Claim C1, counterexample: in the configuration with no resolvable
executable and the health probe reporting the daemon running, `start_aria2`
returns the executable-not-found error, not the already-running result —
the executable check precedes the probe. -/
theorem start_no_exec_counterexample :
    (startAria2 (ControllerState.mk ("my_secret") 6800 none none false false)
        (StartEnv.mk true true true false)).1 = StartResult.execNotFound
  ∧ StartResult.execNotFound ≠ StartResult.alreadyRunning
  ∧ (StartEnv.mk true true true false).probeBefore = true := by
  decide

/-- Claim C1 (amended): for every configuration with a resolvable executable
in which the health probe reports the daemon already running, `start_aria2`
returns the already-running result, leaves the state unchanged and spawns no
process; and two consecutive start calls with no intervening stop yield
Started then AlreadyRunning and spawn exactly one process. -/
theorem start_already_running_idempotent
    (s : ControllerState) (e1 e2 : StartEnv)
    (hexec : execMissing s.aria2Executable = false)
    (h1 : e1.probeBefore = false) (hspawn : e1.spawnOk = true)
    (hafter : e1.probeAfter = true) (h2 : e2.probeBefore = true) :
    startAria2 s e2 = (StartResult.alreadyRunning, s, 0)
  ∧ (startAria2 s e1).1 = StartResult.started
  ∧ (startAria2 s e1).2.2 = 1
  ∧ (startAria2 (startAria2 s e1).2.1 e2).1 = StartResult.alreadyRunning
  ∧ (startAria2 (startAria2 s e1).2.1 e2).2.2 = 0 := by
  have hs1 : startAria2 s e1
      = (StartResult.started, { s with hasProcess := true, aria2Running := true }, 1) := by
    simp [startAria2, hexec, h1, hspawn, hafter]
  refine ⟨by simp [startAria2, hexec, h2], by rw [hs1], by rw [hs1], ?_, ?_⟩
  · rw [hs1]
    simp [startAria2, hexec, h2]
  · rw [hs1]
    simp [startAria2, hexec, h2]

/-- Witness for C1 at concrete inputs: a running daemon makes start return
already-running with no spawn; a fresh daemon makes the two consecutive
calls return Started then AlreadyRunning with exactly one spawn. -/
theorem start_already_running_idempotent_witness :
    startAria2 (ControllerState.mk ("my_secret") 6800 none (some ("aria2c")) false false)
        (StartEnv.mk true true true false)
      = (StartResult.alreadyRunning,
         ControllerState.mk ("my_secret") 6800 none (some ("aria2c")) false false, 0)
  ∧ (startAria2 (ControllerState.mk ("my_secret") 6800 none (some ("aria2c")) false false)
        (StartEnv.mk false true true false)).1 = StartResult.started
  ∧ (startAria2 (ControllerState.mk ("my_secret") 6800 none (some ("aria2c")) false false)
        (StartEnv.mk false true true false)).2.2 = 1
  ∧ (startAria2
        (startAria2 (ControllerState.mk ("my_secret") 6800 none (some ("aria2c")) false false)
          (StartEnv.mk false true true false)).2.1
        (StartEnv.mk true true true false)).1 = StartResult.alreadyRunning
  ∧ (startAria2
        (startAria2 (ControllerState.mk ("my_secret") 6800 none (some ("aria2c")) false false)
          (StartEnv.mk false true true false)).2.1
        (StartEnv.mk true true true false)).2.2 = 0 :=
  start_already_running_idempotent
    (ControllerState.mk ("my_secret") 6800 none (some ("aria2c")) false false)
    (StartEnv.mk false true true false) (StartEnv.mk true true true false)
    rfl rfl rfl rfl rfl

/-- Claim C4: when the health probe reports the daemon not running,
`stop_aria2` returns the not-running result as a Python success tuple,
performs no termination action, and leaves the controller state unchanged. -/
theorem stop_not_running_noop (s : ControllerState) (env : StopEnv)
    (h : env.probeBefore = false) :
    stopAria2 s env = (StopResult.notRunning, s, [])
  ∧ stopSuccess StopResult.notRunning = true := by
  constructor
  · simp [stopAria2, h]
  · rfl

/-- Witness for C4 at a concrete input: stop on a not-running daemon is a
no-op returning the not-running result. -/
theorem stop_not_running_noop_witness :
    stopAria2 (ControllerState.mk ("my_secret") 6800 none none false false)
        (StopEnv.mk false false false [] false)
      = (StopResult.notRunning,
         ControllerState.mk ("my_secret") 6800 none none false false, [])
  ∧ stopSuccess StopResult.notRunning = true :=
  stop_not_running_noop (ControllerState.mk ("my_secret") 6800 none none false false)
    (StopEnv.mk false false false [] false) rfl

/-- When no sweep outcome is the uncaught kind, the cleanup sweep does not
abort and every matching process receives a terminate attempt. -/
theorem sweepRun_no_abort (l : List TermOutcome) (i : Nat)
    (h : TermOutcome.otherError ∉ l) :
    (sweepRun i l).2 = false
  ∧ ∀ j, j < l.length → StopAction.termProc (i + j) ∈ (sweepRun i l).1 := by
  induction l generalizing i with
  | nil => exact ⟨rfl, fun j hj => absurd hj (by simp)⟩
  | cons a rest ih =>
      have ha : a ≠ TermOutcome.otherError := fun hc => h (hc ▸ List.mem_cons_self a rest)
      have hrest : TermOutcome.otherError ∉ rest := fun hc => h (List.mem_cons_of_mem a hc)
      have hr := ih (i + 1) hrest
      cases a with
      | otherError => exact absurd rfl ha
      | ok =>
          refine ⟨by simpa [sweepRun] using hr.1, ?_⟩
          intro j hj
          cases j with
          | zero => simp [sweepRun]
          | succ k =>
              have hk : k < rest.length := by simpa using hj
              have hm := hr.2 k hk
              have heq : i + (k + 1) = (i + 1) + k := by omega
              rw [heq]
              simp [sweepRun]
              exact Or.inr hm
      | noSuchProcess =>
          refine ⟨by simpa [sweepRun] using hr.1, ?_⟩
          intro j hj
          cases j with
          | zero => simp [sweepRun]
          | succ k =>
              have hk : k < rest.length := by simpa using hj
              have hm := hr.2 k hk
              have heq : i + (k + 1) = (i + 1) + k := by omega
              rw [heq]
              simp [sweepRun]
              exact Or.inr hm

/-- Claim C5, counterexample: with the daemon running, the handle owned and
alive, and a sweep in which the first matching process's terminate raises an
uncaught failure, stop aborts with the generic error: the second matching
process never receives a terminate attempt, and the result is not the
success the post-stop probe (daemon gone) would dictate — so sweep failures
are not all silently ignored. -/
theorem stop_sweep_error_counterexample :
    (stopAria2 (ControllerState.mk ("my_secret") 6800 none (some ("aria2c")) true true)
        (StopEnv.mk true true true [TermOutcome.otherError, TermOutcome.ok] false)).1
      = StopResult.stopError
  ∧ StopAction.termProc 1 ∉
      (stopAria2 (ControllerState.mk ("my_secret") 6800 none (some ("aria2c")) true true)
        (StopEnv.mk true true true [TermOutcome.otherError, TermOutcome.ok] false)).2.2
  ∧ (StopEnv.mk true true true [TermOutcome.otherError, TermOutcome.ok] false).probeAfter
      = false
  ∧ (stopAria2 (ControllerState.mk ("my_secret") 6800 none (some ("aria2c")) true true)
        (StopEnv.mk true true true [TermOutcome.otherError, TermOutcome.ok] false)).1
      ≠ StopResult.stopped := by
  decide

/-- Claim C5 (amended): when the daemon is running and the supervisor owns a
live handle, stop requests graceful termination, force-kills on timeout of
the bounded wait, sends best-effort termination to every name-matching
process — already-gone (NoSuchProcess) failures silently ignored — and,
provided no other termination failure occurs, re-probes after the settle
period and returns StopFailed if and only if the daemon is still detected
running (returning the stopped success otherwise). -/
theorem stop_owned_terminates_and_reprobes
    (s : ControllerState) (env : StopEnv)
    (hrun : env.probeBefore = true) (hown : s.hasProcess = true)
    (halive : env.ownedAlive = true)
    (hsweep : TermOutcome.otherError ∉ env.sweep) :
    StopAction.termOwned ∈ (stopAria2 s env).2.2
  ∧ (env.gracefulExit = false → StopAction.killOwned ∈ (stopAria2 s env).2.2)
  ∧ (∀ j, j < env.sweep.length → StopAction.termProc j ∈ (stopAria2 s env).2.2)
  ∧ ((stopAria2 s env).1 = StopResult.stopFailed ↔ env.probeAfter = true)
  ∧ ((stopAria2 s env).1 = StopResult.stopped ↔ env.probeAfter = false) := by
  have hsw := sweepRun_no_abort env.sweep 0 hsweep
  have hmem : ∀ j, j < env.sweep.length →
      StopAction.termProc j ∈ (sweepRun 0 env.sweep).1 := by
    intro j hj
    simpa using hsw.2 j hj
  cases hg : env.gracefulExit <;> cases hpa : env.probeAfter <;>
    refine ⟨?_, ?_, ?_, ?_, ?_⟩ <;>
      simp [stopAria2, hrun, hown, halive, hg, hpa, hsw.1] <;>
        intro j hj <;> exact hmem j hj

/-- Witness for C5 at concrete inputs: graceful wait times out so the kill
is sent, the sweep's already-gone failure is ignored with both matching
processes attempted, and the still-running re-probe yields StopFailed. -/
theorem stop_owned_terminates_and_reprobes_witness :
    StopAction.termOwned ∈
      (stopAria2 (ControllerState.mk ("my_secret") 6800 none (some ("aria2c")) true true)
        (StopEnv.mk true true false [TermOutcome.ok, TermOutcome.noSuchProcess] true)).2.2
  ∧ ((StopEnv.mk true true false [TermOutcome.ok, TermOutcome.noSuchProcess] true).gracefulExit
        = false →
      StopAction.killOwned ∈
        (stopAria2 (ControllerState.mk ("my_secret") 6800 none (some ("aria2c")) true true)
          (StopEnv.mk true true false [TermOutcome.ok, TermOutcome.noSuchProcess] true)).2.2)
  ∧ (∀ j, j < (StopEnv.mk true true false [TermOutcome.ok, TermOutcome.noSuchProcess] true).sweep.length →
      StopAction.termProc j ∈
        (stopAria2 (ControllerState.mk ("my_secret") 6800 none (some ("aria2c")) true true)
          (StopEnv.mk true true false [TermOutcome.ok, TermOutcome.noSuchProcess] true)).2.2)
  ∧ ((stopAria2 (ControllerState.mk ("my_secret") 6800 none (some ("aria2c")) true true)
        (StopEnv.mk true true false [TermOutcome.ok, TermOutcome.noSuchProcess] true)).1
        = StopResult.stopFailed ↔
      (StopEnv.mk true true false [TermOutcome.ok, TermOutcome.noSuchProcess] true).probeAfter
        = true)
  ∧ ((stopAria2 (ControllerState.mk ("my_secret") 6800 none (some ("aria2c")) true true)
        (StopEnv.mk true true false [TermOutcome.ok, TermOutcome.noSuchProcess] true)).1
        = StopResult.stopped ↔
      (StopEnv.mk true true false [TermOutcome.ok, TermOutcome.noSuchProcess] true).probeAfter
        = false) :=
  stop_owned_terminates_and_reprobes
    (ControllerState.mk ("my_secret") 6800 none (some ("aria2c")) true true)
    (StopEnv.mk true true false [TermOutcome.ok, TermOutcome.noSuchProcess] true)
    rfl rfl rfl (by decide)

end Speedown
